import Mathlib

/-!
Verification of the flat-file inventory store and image store in `src/main.py`.

The HTTP handlers are embedded as pure functions.  Every mutating handler in
the source performs `load_inventory()` (a full read of `storage.json`), an
in-memory modification, and `save_inventory(...)` (a full rewrite), so the
persisted state is modelled directly as the in-memory list: a handler takes the
loaded state and returns, on success, the state it saves.  `HTTPException`
results are modelled as `Except.error` carrying the HTTP status code; on the
error paths the source raises before ever calling `save_inventory` (or before
writing a file), which the embedding reflects by returning no new state at all.

Generated `uuid.uuid4()` tokens are modelled as explicit `String` parameters;
where a property depends on uuid uniqueness (the spec treats collision
probability as negligible) the corresponding theorem carries an explicit
freshness hypothesis.
-/

/-- Python `str.startswith`: the argument is a character-sequence prefix of the
receiver. -/
def startswith (s p : String) : Bool := p.data.isPrefixOf s.data

/-- Python `str.endswith`: the argument is a character-sequence suffix of the
receiver. -/
def endswith (s p : String) : Bool := p.data.isSuffixOf s.data

/-- Python `str.lower`, characterwise. -/
def lower (s : String) : String := ⟨s.data.map Char.toLower⟩

/-- The record shape stored in `storage.json` (`class InventoryItem` and the
dicts built by the handlers in `src/main.py`). -/
structure InventoryItem where
  id : String
  name : String
  description : String
  category : String
  image_url : String
  deriving DecidableEq, Repr

/-- The full contents of `storage.json`: an ordered sequence of items. -/
abbrev Inventory := List InventoryItem

/-- `GET /inventory`: returns the loaded inventory verbatim. -/
def get_inventory (inv : Inventory) : Inventory := inv

/-- `GET /inventory/{item_id}`: `next((item for item in inventory if
item["id"] == item_id), None)`, 404 when absent. -/
def get_inventory_item (inv : Inventory) (item_id : String) :
    Except Nat InventoryItem :=
  match inv.find? (fun it => it.id == item_id) with
  | none => .error 404
  | some it => .ok it

/-- `POST /inventory`.  `item_id` stands for the freshly generated
`str(uuid.uuid4())`.  Validates the `/images/` reference, appends the new
item, saves, and returns the item. -/
def create_inventory_item (inv : Inventory)
    (item_id name description category image_url : String) :
    Except Nat (Inventory × InventoryItem) :=
  if ¬ startswith image_url "/images/" then .error 400
  else
    let item : InventoryItem :=
      { id := item_id, name := name, description := description,
        category := category, image_url := image_url }
    .ok (inv ++ [item], item)

/-- The effect on the list of `item.update({...})` in the source: `item` is an
alias of the first dict whose `"id"` matches, so exactly that position of the
list is mutated. -/
def update_first (inv : Inventory) (item_id : String) (item : InventoryItem) :
    Inventory :=
  match inv with
  | [] => []
  | it :: rest =>
      if it.id == item_id then item :: rest
      else it :: update_first rest item_id item

/-- `PUT /inventory/{item_id}`: looks up the first matching item (404 when
absent), validates the `/images/` reference (400), replaces the mutable
fields in place, saves, and returns the updated item. -/
def update_inventory_item (inv : Inventory)
    (item_id name description category image_url : String) :
    Except Nat (Inventory × InventoryItem) :=
  match inv.find? (fun it => it.id == item_id) with
  | none => .error 404
  | some it =>
    if ¬ startswith image_url "/images/" then .error 400
    else
      let item : InventoryItem :=
        { it with name := name, description := description,
                  category := category, image_url := image_url }
      .ok (update_first inv item_id item, item)

/-- `DELETE /inventory/{item_id}`: looks up the first matching item (404 when
absent), then `inventory.remove(item)` removes the first list element equal to
that dict. -/
def delete_inventory_item (inv : Inventory) (item_id : String) :
    Except Nat Inventory :=
  match inv.find? (fun it => it.id == item_id) with
  | none => .error 404
  | some it => .ok (inv.erase it)

/-- The contents of `UPLOAD_DIR`, newest file first; `open(path, "wb")`
overwrites, which matches front insertion together with first-match lookup.
Bytes are modelled as `List Nat`. -/
abbrev ImageDir := List (String × List Nat)

/-- `POST /images/upload`.  `file_id` stands for the generated
`str(uuid.uuid4())`.  Rejects non-image declared content types, writes the
bytes under `file_id ++ "_" ++ filename`, and returns the relative reference
path (`relative_path` in the source; the `full_url` variant only prepends
`BASE_URL`). -/
def upload_image (dir : ImageDir) (content_type file_id filename : String)
    (content : List Nat) : Except Nat (ImageDir × String) :=
  if ¬ startswith content_type "image/" then .error 400
  else
    let storage_name := file_id ++ "_" ++ filename
    .ok ((storage_name, content) :: dir, "/images/" ++ storage_name)

/-- Content-type inference in `GET /images/{filename}`: default
`"image/jpeg"`, overridden for `.png` and `.gif` extensions
(case-insensitively). -/
def infer_content_type (filename : String) : String :=
  if endswith (lower filename) ".png" then "image/png"
  else if endswith (lower filename) ".gif" then "image/gif"
  else "image/jpeg"

/-- `GET /images/{filename}`: 404 when the file is absent, otherwise the
stored bytes served with the inferred content type. -/
def get_image (dir : ImageDir) (filename : String) :
    Except Nat (List Nat × String) :=
  match List.lookup filename dir with
  | none => .error 404
  | some bs => .ok (bs, infer_content_type filename)

/-- A sequence of `POST /inventory` calls, each carrying its generated uuid and
form fields (the same five strings an `InventoryItem` holds), threaded through
the store state; the first failure aborts. -/
def run_creates (inv : Inventory) (reqs : List InventoryItem) : Except Nat Inventory :=
  match reqs with
  | [] => .ok inv
  | r :: rest =>
      match create_inventory_item inv r.id r.name r.description r.category r.image_url with
      | .error e => .error e
      | .ok (inv', _) => run_creates inv' rest

/-- Inventory states reachable from the empty `storage.json` through the three
mutating handlers.  The `create` step carries the uuid4 assumption made by the
source: the generated id collides with no id already stored. -/
inductive Reachable : Inventory → Prop
  | empty : Reachable []
  | create {inv inv' : Inventory} {item : InventoryItem}
      {item_id name description category image_url : String}
      (h : Reachable inv) (hfresh : ∀ it ∈ inv, it.id ≠ item_id)
      (hok : create_inventory_item inv item_id name description category
        image_url = .ok (inv', item)) : Reachable inv'
  | update {inv inv' : Inventory} {item : InventoryItem}
      {item_id name description category image_url : String}
      (h : Reachable inv)
      (hok : update_inventory_item inv item_id name description category
        image_url = .ok (inv', item)) : Reachable inv'
  | delete {inv inv' : Inventory} {item_id : String}
      (h : Reachable inv)
      (hok : delete_inventory_item inv item_id = .ok inv') : Reachable inv'

/-! ### Helper lemmas on the linear id scan -/

lemma find?_id_first (pre post : Inventory) (a : InventoryItem) (item_id : String)
    (hpre : ∀ x ∈ pre, x.id ≠ item_id) (ha : a.id = item_id) :
    List.find? (fun it => it.id == item_id) (pre ++ a :: post) = some a := by
  induction pre with
  | nil =>
      simp only [List.nil_append]
      exact List.find?_cons_of_pos _ (by simp [ha])
  | cons x xs ih =>
      simp only [List.cons_append]
      rw [List.find?_cons_of_neg _ (by simpa using hpre x (List.mem_cons_self x xs))]
      exact ih fun y hy => hpre y (List.mem_cons_of_mem x hy)

lemma find?_id_none (inv : Inventory) (item_id : String)
    (h : ∀ x ∈ inv, x.id ≠ item_id) :
    List.find? (fun it => it.id == item_id) inv = none :=
  List.find?_eq_none.mpr fun x hx => by simpa using h x hx

lemma update_first_append (pre post : Inventory) (a item : InventoryItem)
    (item_id : String) (hpre : ∀ x ∈ pre, x.id ≠ item_id) (ha : a.id = item_id) :
    update_first (pre ++ a :: post) item_id item = pre ++ item :: post := by
  induction pre with
  | nil => simp [update_first, ha]
  | cons x xs ih =>
      simp only [List.cons_append, update_first, List.append_eq]
      rw [if_neg (by simpa using hpre x (List.mem_cons_self x xs))]
      rw [ih fun y hy => hpre y (List.mem_cons_of_mem x hy)]

lemma update_first_map_id (inv : Inventory) (item_id : String)
    (item : InventoryItem) (h : item.id = item_id) :
    (update_first inv item_id item).map (fun it => it.id) =
      inv.map (fun it => it.id) := by
  induction inv with
  | nil => rfl
  | cons x xs ih =>
      by_cases hx : (x.id == item_id) = true
      · simp only [update_first, if_pos hx, List.map_cons]
        rw [h, eq_of_beq hx]
      · simp only [update_first, if_neg hx, List.map_cons, ih]

lemma erase_id_first (pre post : Inventory) (a : InventoryItem) (item_id : String)
    (hpre : ∀ x ∈ pre, x.id ≠ item_id) (ha : a.id = item_id) :
    (pre ++ a :: post).erase a = pre ++ post := by
  have hnot : a ∉ pre := fun hmem => hpre a hmem ha
  rw [List.erase_append_right _ hnot, List.erase_cons_head]

lemma run_creates_ok (reqs : List InventoryItem) (inv : Inventory)
    (h : ∀ r ∈ reqs, startswith r.image_url "/images/" = true) :
    run_creates inv reqs = .ok (inv ++ reqs) := by
  induction reqs generalizing inv with
  | nil => simp [run_creates]
  | cons r rest ih =>
      have hr := h r (List.mem_cons_self r rest)
      have heta : (⟨r.id, r.name, r.description, r.category, r.image_url⟩ :
          InventoryItem) = r := rfl
      have hcreate : create_inventory_item inv r.id r.name r.description
          r.category r.image_url = .ok (inv ++ [r], r) := by
        simp [create_inventory_item, hr, heta]
      simp only [run_creates, hcreate]
      rw [ih (inv ++ [r]) fun y hy => h y (List.mem_cons_of_mem r hy)]
      simp

/-! ### Claim C1 -/

/-- C1: for every inventory state and valid input (the `image_url` beginning
with `"/images/"`), create followed by get with the id returned by create
succeeds and returns an item whose four fields equal the values passed and
whose id is the generated one.  The freshness hypothesis models the uuid4
assumption that the generated id is not already stored. -/
theorem create_then_get_roundtrip (inv : Inventory)
    (item_id name description category image_url : String)
    (hfresh : ∀ it ∈ inv, it.id ≠ item_id)
    (hurl : startswith image_url "/images/" = true) :
    ∃ inv' item,
      create_inventory_item inv item_id name description category image_url =
        .ok (inv', item) ∧
      item.id = item_id ∧ item.name = name ∧ item.description = description ∧
      item.category = category ∧ item.image_url = image_url ∧
      get_inventory_item inv' item_id = .ok item := by
  refine ⟨inv ++ [⟨item_id, name, description, category, image_url⟩],
    ⟨item_id, name, description, category, image_url⟩,
    ?_, rfl, rfl, rfl, rfl, rfl, ?_⟩
  · simp [create_inventory_item, hurl]
  · unfold get_inventory_item
    rw [find?_id_first inv [] _ item_id hfresh rfl]

/-- C1 witness: the spec's concrete Hammer scenario on the empty store. -/
theorem create_then_get_roundtrip_witness :
    ∃ inv' item,
      create_inventory_item [] "id-1" "Hammer" "16oz claw hammer" "Tools"
        "/images/abc_hammer.png" = .ok (inv', item) ∧
      item.id = "id-1" ∧ item.name = "Hammer" ∧
      item.description = "16oz claw hammer" ∧ item.category = "Tools" ∧
      item.image_url = "/images/abc_hammer.png" ∧
      get_inventory_item inv' "id-1" = .ok item :=
  create_then_get_roundtrip [] "id-1" "Hammer" "16oz claw hammer" "Tools"
    "/images/abc_hammer.png" (by simp) (by decide)

/-! ### Claim C2 -/

/-- C2 counterexample: calling update with a malformed `image_url` on a state
in which the id is absent fails with 404 (the id lookup fires first), not with
the claimed validation error 400. -/
theorem update_absent_id_bad_url_is_404 :
    update_inventory_item [] "some-id" "n" "d" "c" "not-an-image-path" =
      .error 404 ∧ (404 : Nat) ≠ 400 :=
  ⟨rfl, by decide⟩

/-- C2 (amended): with an `image_url` lacking the `"/images/"` reference
prefix, create fails with 400 on every state, and update fails with 400 on
every state that contains the id; in both cases the handler raises before
`save_inventory` is called, so no write occurs (the embedding returns no new
state). -/
theorem invalid_image_url_rejected (inv : Inventory)
    (item_id name description category image_url : String)
    (hbad : startswith image_url "/images/" = false) :
    create_inventory_item inv item_id name description category image_url =
      .error 400 ∧
    ((∃ it ∈ inv, it.id = item_id) →
      update_inventory_item inv item_id name description category image_url =
        .error 400) := by
  constructor
  · simp [create_inventory_item, hbad]
  · rintro ⟨it, hmem, hid⟩
    unfold update_inventory_item
    cases hfind : List.find? (fun x => x.id == item_id) inv with
    | none => exact absurd hid (by simpa using List.find?_eq_none.mp hfind it hmem)
    | some it' => simp [hbad]

/-- C2 witness: `"not-an-image-path"` is rejected by create on the empty store
and by update on a one-item store holding the target id. -/
theorem invalid_image_url_rejected_witness :
    create_inventory_item [] "id-1" "n" "d" "c" "not-an-image-path" =
      .error 400 ∧
    ((∃ it ∈ ([⟨"id-1", "n", "d", "c", "/images/x.png"⟩] : Inventory),
        it.id = "id-1") →
      update_inventory_item [⟨"id-1", "n", "d", "c", "/images/x.png"⟩] "id-1"
        "n" "d" "c" "not-an-image-path" = .error 400) :=
  invalid_image_url_rejected [⟨"id-1", "n", "d", "c", "/images/x.png"⟩]
    "id-1" "n" "d" "c" "not-an-image-path" (by decide)

/-! ### Claim C3 -/

/-- C3: on a state containing the target id (decomposed around the first
matching item `a`), update with valid inputs succeeds; the resulting state is
`pre ++ item :: post`, so every other item is unchanged and in the same order,
the target's id is kept, and its four mutable fields take the passed values. -/
theorem update_replaces_only_target (pre post : Inventory) (a : InventoryItem)
    (item_id name description category image_url : String)
    (hpre : ∀ x ∈ pre, x.id ≠ item_id) (ha : a.id = item_id)
    (hurl : startswith image_url "/images/" = true) :
    ∃ item : InventoryItem,
      update_inventory_item (pre ++ a :: post) item_id name description
        category image_url = .ok (pre ++ item :: post, item) ∧
      item.id = a.id ∧ item.name = name ∧ item.description = description ∧
      item.category = category ∧ item.image_url = image_url := by
  refine ⟨⟨a.id, name, description, category, image_url⟩,
    ?_, rfl, rfl, rfl, rfl, rfl⟩
  unfold update_inventory_item
  rw [find?_id_first pre post a item_id hpre ha]
  simp only [hurl, not_true_eq_false, Bool.false_eq_true, if_false,
    Bool.true_eq_false, ite_false]
  rw [update_first_append pre post a _ item_id hpre ha]

/-- C3 witness: updating the middle item of a three-item store leaves its
neighbours untouched. -/
theorem update_replaces_only_target_witness :
    ∃ item : InventoryItem,
      update_inventory_item
        [⟨"i1", "n1", "d1", "c1", "/images/a.png"⟩,
         ⟨"i2", "n2", "d2", "c2", "/images/b.png"⟩,
         ⟨"i3", "n3", "d3", "c3", "/images/c.png"⟩] "i2"
        "n2x" "d2x" "c2x" "/images/new.png" =
        .ok ([⟨"i1", "n1", "d1", "c1", "/images/a.png"⟩] ++ item ::
          [⟨"i3", "n3", "d3", "c3", "/images/c.png"⟩], item) ∧
      item.id = "i2" ∧ item.name = "n2x" ∧ item.description = "d2x" ∧
      item.category = "c2x" ∧ item.image_url = "/images/new.png" :=
  update_replaces_only_target [⟨"i1", "n1", "d1", "c1", "/images/a.png"⟩]
    [⟨"i3", "n3", "d3", "c3", "/images/c.png"⟩]
    ⟨"i2", "n2", "d2", "c2", "/images/b.png"⟩ "i2" "n2x" "d2x" "c2x"
    "/images/new.png" (by decide) rfl (by decide)

/-! ### Claim C4 -/

/-- C4: when no stored item has the given id, update returns 404 whatever the
other arguments are — in particular with a malformed `image_url` — because the
id lookup precedes the `image_url` validation in the handler. -/
theorem update_absent_id_not_found (inv : Inventory)
    (item_id name description category image_url : String)
    (habs : ∀ it ∈ inv, it.id ≠ item_id) :
    update_inventory_item inv item_id name description category image_url =
      .error 404 := by
  unfold update_inventory_item
  rw [find?_id_none inv item_id habs]

/-- C4 witness: a nonempty store without the id, probed with a malformed
`image_url`, still yields 404. -/
theorem update_absent_id_not_found_witness :
    update_inventory_item [⟨"other", "n", "d", "c", "/images/x.png"⟩]
      "missing" "n2" "d2" "c2" "not-an-image-path" = .error 404 :=
  update_absent_id_not_found [⟨"other", "n", "d", "c", "/images/x.png"⟩]
    "missing" "n2" "d2" "c2" "not-an-image-path" (by decide)

/-! ### Claim C5 -/

/-- C5 counterexample: on a state with two items sharing an id, the first
delete removes only the first of them, and the second delete with the same id
succeeds instead of returning the claimed 404. -/
theorem delete_duplicate_id_second_delete_succeeds :
    delete_inventory_item
      [⟨"dup", "n1", "d1", "c1", "/images/a.png"⟩,
       ⟨"dup", "n2", "d2", "c2", "/images/b.png"⟩] "dup" =
      .ok [⟨"dup", "n2", "d2", "c2", "/images/b.png"⟩] ∧
    delete_inventory_item [⟨"dup", "n2", "d2", "c2", "/images/b.png"⟩] "dup" =
      .ok [] :=
  ⟨rfl, rfl⟩

/-- C5 (amended): on a state containing the target id (decomposed around the
first matching item `a`), delete removes exactly that item — the length drops
by one and `pre` and `post` survive verbatim — and, provided no other item of
the state carries that id, a second delete with the same id returns 404. -/
theorem delete_removes_first_match (pre post : Inventory) (a : InventoryItem)
    (item_id : String)
    (hpre : ∀ x ∈ pre, x.id ≠ item_id) (ha : a.id = item_id) :
    delete_inventory_item (pre ++ a :: post) item_id = .ok (pre ++ post) ∧
    (pre ++ post).length + 1 = (pre ++ a :: post).length ∧
    ((∀ x ∈ post, x.id ≠ item_id) →
      delete_inventory_item (pre ++ post) item_id = .error 404) := by
  refine ⟨?_, by simp [Nat.add_assoc], ?_⟩
  · unfold delete_inventory_item
    rw [find?_id_first pre post a item_id hpre ha]
    show Except.ok ((pre ++ a :: post).erase a) = Except.ok (pre ++ post)
    rw [erase_id_first pre post a item_id hpre ha]
  · intro hpost
    unfold delete_inventory_item
    rw [find?_id_none]
    intro x hx
    rcases List.mem_append.mp hx with h | h
    exacts [hpre x h, hpost x h]

/-- C5 witness: deleting from a two-item store with distinct ids removes one
item and a second delete of the same id fails with 404. -/
theorem delete_removes_first_match_witness :
    delete_inventory_item
      ([⟨"i1", "n1", "d1", "c1", "/images/a.png"⟩] ++
        ⟨"i2", "n2", "d2", "c2", "/images/b.png"⟩ ::
        [⟨"i3", "n3", "d3", "c3", "/images/c.png"⟩]) "i2" =
      .ok ([⟨"i1", "n1", "d1", "c1", "/images/a.png"⟩] ++
        [⟨"i3", "n3", "d3", "c3", "/images/c.png"⟩]) ∧
    (([⟨"i1", "n1", "d1", "c1", "/images/a.png"⟩] ++
      [⟨"i3", "n3", "d3", "c3", "/images/c.png"⟩] : Inventory)).length + 1 =
      (([⟨"i1", "n1", "d1", "c1", "/images/a.png"⟩] ++
        ⟨"i2", "n2", "d2", "c2", "/images/b.png"⟩ ::
        [⟨"i3", "n3", "d3", "c3", "/images/c.png"⟩] : Inventory)).length ∧
    ((∀ x ∈ ([⟨"i3", "n3", "d3", "c3", "/images/c.png"⟩] : Inventory),
        x.id ≠ "i2") →
      delete_inventory_item
        ([⟨"i1", "n1", "d1", "c1", "/images/a.png"⟩] ++
          [⟨"i3", "n3", "d3", "c3", "/images/c.png"⟩]) "i2" = .error 404) :=
  delete_removes_first_match [⟨"i1", "n1", "d1", "c1", "/images/a.png"⟩]
    [⟨"i3", "n3", "d3", "c3", "/images/c.png"⟩]
    ⟨"i2", "n2", "d2", "c2", "/images/b.png"⟩ "i2" (by decide) rfl

/-! ### Claim C6 -/

/-- C6: starting from the empty inventory, after N successful creates the list
endpoint returns exactly the N created items, in creation order. -/
theorem creates_list_in_order (reqs : List InventoryItem)
    (h : ∀ r ∈ reqs, startswith r.image_url "/images/" = true) :
    ∃ final : Inventory, run_creates [] reqs = .ok final ∧
      get_inventory final = reqs ∧ (get_inventory final).length = reqs.length :=
  ⟨reqs, by simpa using run_creates_ok reqs [] h, rfl, rfl⟩

/-- C6 witness: two creates on the empty store list back in order. -/
theorem creates_list_in_order_witness :
    ∃ final : Inventory,
      run_creates [] [⟨"i1", "n1", "d1", "c1", "/images/a.png"⟩,
        ⟨"i2", "n2", "d2", "c2", "/images/b.png"⟩] = .ok final ∧
      get_inventory final = [⟨"i1", "n1", "d1", "c1", "/images/a.png"⟩,
        ⟨"i2", "n2", "d2", "c2", "/images/b.png"⟩] ∧
      (get_inventory final).length =
        ([⟨"i1", "n1", "d1", "c1", "/images/a.png"⟩,
          ⟨"i2", "n2", "d2", "c2", "/images/b.png"⟩] : Inventory).length :=
  creates_list_in_order [⟨"i1", "n1", "d1", "c1", "/images/a.png"⟩,
    ⟨"i2", "n2", "d2", "c2", "/images/b.png"⟩] (by decide)

/-! ### Claim C7 -/

/-- C7: an upload whose declared media type does not begin with `"image/"` is
rejected with 400; the handler raises before opening the file, so no file is
written (the embedding returns no new directory state). -/
theorem upload_non_image_rejected (dir : ImageDir)
    (content_type file_id filename : String) (content : List Nat)
    (h : startswith content_type "image/" = false) :
    upload_image dir content_type file_id filename content = .error 400 := by
  simp [upload_image, h]

/-- C7 witness: a `text/plain` upload is rejected. -/
theorem upload_non_image_rejected_witness :
    upload_image [] "text/plain" "tok" "notes.txt" [1, 2, 3] = .error 400 :=
  upload_non_image_rejected [] "text/plain" "tok" "notes.txt" [1, 2, 3]
    (by decide)

/-! ### Claim C8 -/

/-- C8: an upload with an image media type succeeds, returns the reference
path `"/images/" ++ token ++ "_" ++ filename`, and retrieving that storage
filename afterwards yields exactly the uploaded bytes. -/
theorem upload_get_roundtrip (dir : ImageDir)
    (content_type file_id filename : String) (content : List Nat)
    (h : startswith content_type "image/" = true) :
    ∃ dir' : ImageDir,
      upload_image dir content_type file_id filename content =
        .ok (dir', "/images/" ++ (file_id ++ "_" ++ filename)) ∧
      get_image dir' (file_id ++ "_" ++ filename) =
        .ok (content, infer_content_type (file_id ++ "_" ++ filename)) := by
  refine ⟨(file_id ++ "_" ++ filename, content) :: dir, ?_, ?_⟩
  · simp [upload_image, h]
  · simp [get_image, List.lookup]

/-- C8 witness: the `image/png` round trip from the spec's scenario. -/
theorem upload_get_roundtrip_witness :
    ∃ dir' : ImageDir,
      upload_image [] "image/png" "tok" "hammer.png" [7, 8, 9] =
        .ok (dir', "/images/" ++ ("tok" ++ "_" ++ "hammer.png")) ∧
      get_image dir' ("tok" ++ "_" ++ "hammer.png") =
        .ok ([7, 8, 9], infer_content_type ("tok" ++ "_" ++ "hammer.png")) :=
  upload_get_roundtrip [] "image/png" "tok" "hammer.png" [7, 8, 9] (by decide)

/-! ### Inversion lemmas for the success paths of the mutating handlers -/

lemma create_ok_inv (inv inv' : Inventory) (item : InventoryItem)
    (item_id name description category image_url : String)
    (hok : create_inventory_item inv item_id name description category
      image_url = .ok (inv', item)) :
    inv' = inv ++ [⟨item_id, name, description, category, image_url⟩] ∧
    item = ⟨item_id, name, description, category, image_url⟩ ∧
    startswith image_url "/images/" = true := by
  unfold create_inventory_item at hok
  by_cases hc : startswith image_url "/images/" = true
  · simp [hc] at hok
    exact ⟨hok.1.symm, hok.2.symm, hc⟩
  · simp [hc] at hok

lemma update_ok_inv (inv inv' : Inventory) (item : InventoryItem)
    (item_id name description category image_url : String)
    (hok : update_inventory_item inv item_id name description category
      image_url = .ok (inv', item)) :
    ∃ it, List.find? (fun x => x.id == item_id) inv = some it ∧
      item.id = it.id ∧ inv' = update_first inv item_id item := by
  unfold update_inventory_item at hok
  cases hfind : List.find? (fun x => x.id == item_id) inv with
  | none => rw [hfind] at hok; exact Except.noConfusion hok
  | some it =>
      rw [hfind] at hok
      by_cases hc : startswith image_url "/images/" = true
      · simp [hc] at hok
        obtain ⟨h1, h2⟩ := hok
        exact ⟨it, rfl, by rw [← h2], by rw [← h1, ← h2]⟩
      · simp [hc] at hok

lemma delete_ok_inv (inv inv' : Inventory) (item_id : String)
    (hok : delete_inventory_item inv item_id = .ok inv') :
    ∃ it, List.find? (fun x => x.id == item_id) inv = some it ∧
      inv' = inv.erase it := by
  unfold delete_inventory_item at hok
  cases hfind : List.find? (fun x => x.id == item_id) inv with
  | none => rw [hfind] at hok; exact Except.noConfusion hok
  | some it =>
      rw [hfind] at hok
      have hok' : Except.ok (inv.erase it) = Except.ok inv' := hok
      simp only [Except.ok.injEq] at hok'
      exact ⟨it, rfl, hok'.symm⟩

/-! ### Claim C9 -/

/-- C9: in every state reachable from the empty collection through create,
update and delete, no two stored items share an id (given the uuid4 freshness
assumption built into the `create` step of `Reachable`). -/
theorem reachable_ids_nodup (inv : Inventory) (h : Reachable inv) :
    (inv.map fun it => it.id).Nodup := by
  induction h with
  | empty => simp
  | create h hfresh hok ih =>
      obtain ⟨hinv', hitem, hurl⟩ := create_ok_inv _ _ _ _ _ _ _ _ hok
      subst hinv'
      rw [List.map_append, List.nodup_append]
      refine ⟨ih, by simp, ?_⟩
      intro x hx hy
      simp only [List.map_cons, List.map_nil, List.mem_singleton] at hy
      obtain ⟨it, hit, hid⟩ := List.mem_map.mp hx
      exact hfresh it hit (by rw [hid, hy])
  | update h hok ih =>
      obtain ⟨it, hfind, hid, hinv'⟩ := update_ok_inv _ _ _ _ _ _ _ _ hok
      subst hinv'
      rw [update_first_map_id _ _ _
        (by rw [hid]; have hb := List.find?_some hfind; simpa using hb)]
      exact ih
  | delete h hok ih =>
      obtain ⟨it, hfind, hinv'⟩ := delete_ok_inv _ _ _ hok
      subst hinv'
      exact List.Nodup.sublist ((List.erase_sublist it _).map _) ih

/-- C9 witness: the one-item state produced by a single create is reachable
and its id list has no duplicate. -/
theorem reachable_ids_nodup_witness :
    (([⟨"id-1", "Hammer", "16oz claw hammer", "Tools",
      "/images/abc_hammer.png"⟩] : Inventory).map fun it => it.id).Nodup :=
  reachable_ids_nodup _
    (@Reachable.create []
      [⟨"id-1", "Hammer", "16oz claw hammer", "Tools", "/images/abc_hammer.png"⟩]
      ⟨"id-1", "Hammer", "16oz claw hammer", "Tools", "/images/abc_hammer.png"⟩
      "id-1" "Hammer" "16oz claw hammer" "Tools" "/images/abc_hammer.png"
      Reachable.empty (by simp) rfl)

/-! ### Claim C10 -/

/-- C10: on a stored sequence holding several items with the same id
(decomposed around the first match `a`, with possible later duplicates inside
`post`), get returns the first match, update rewrites only the first match's
position, and delete removes only the first match; `post` — including any
later duplicate — survives verbatim in all three. -/
theorem duplicate_id_first_match_semantics (pre post : Inventory)
    (a : InventoryItem) (item_id name description category image_url : String)
    (hpre : ∀ x ∈ pre, x.id ≠ item_id) (ha : a.id = item_id)
    (hurl : startswith image_url "/images/" = true) :
    get_inventory_item (pre ++ a :: post) item_id = .ok a ∧
    (∃ item : InventoryItem,
      update_inventory_item (pre ++ a :: post) item_id name description
        category image_url = .ok (pre ++ item :: post, item) ∧
      item.id = a.id) ∧
    delete_inventory_item (pre ++ a :: post) item_id = .ok (pre ++ post) := by
  refine ⟨?_, ?_, ?_⟩
  · unfold get_inventory_item
    rw [find?_id_first pre post a item_id hpre ha]
  · refine ⟨⟨a.id, name, description, category, image_url⟩, ?_, rfl⟩
    unfold update_inventory_item
    rw [find?_id_first pre post a item_id hpre ha]
    simp only [hurl, not_true_eq_false, Bool.false_eq_true, if_false,
      Bool.true_eq_false, ite_false]
    rw [update_first_append pre post a _ item_id hpre ha]
  · unfold delete_inventory_item
    rw [find?_id_first pre post a item_id hpre ha]
    show Except.ok ((pre ++ a :: post).erase a) = Except.ok (pre ++ post)
    rw [erase_id_first pre post a item_id hpre ha]

/-- C10 witness: a two-item state whose items share the id `"dup"`; each call
touches only the first one and the later duplicate survives unchanged. -/
theorem duplicate_id_first_match_semantics_witness :
    get_inventory_item ([] ++ ⟨"dup", "n1", "d1", "c1", "/images/a.png"⟩ ::
      [⟨"dup", "n2", "d2", "c2", "/images/b.png"⟩]) "dup" =
      .ok ⟨"dup", "n1", "d1", "c1", "/images/a.png"⟩ ∧
    (∃ item : InventoryItem,
      update_inventory_item ([] ++ ⟨"dup", "n1", "d1", "c1", "/images/a.png"⟩ ::
        [⟨"dup", "n2", "d2", "c2", "/images/b.png"⟩]) "dup" "n1x" "d1x" "c1x"
        "/images/new.png" =
        .ok ([] ++ item :: [⟨"dup", "n2", "d2", "c2", "/images/b.png"⟩], item) ∧
      item.id = (⟨"dup", "n1", "d1", "c1", "/images/a.png"⟩ :
        InventoryItem).id) ∧
    delete_inventory_item ([] ++ ⟨"dup", "n1", "d1", "c1", "/images/a.png"⟩ ::
      [⟨"dup", "n2", "d2", "c2", "/images/b.png"⟩]) "dup" =
      .ok ([] ++ [⟨"dup", "n2", "d2", "c2", "/images/b.png"⟩]) :=
  duplicate_id_first_match_semantics []
    [⟨"dup", "n2", "d2", "c2", "/images/b.png"⟩]
    ⟨"dup", "n1", "d1", "c1", "/images/a.png"⟩ "dup" "n1x" "d1x" "c1x"
    "/images/new.png" (by simp) rfl (by decide)
